import Mathlib

/-!
Verification of the tweakio-sdk ingestion-and-persistence core.

The Python sources are shallowly embedded: Python strings become `String`
(ASCII case folding for `str.lower`), Python lists become `List`, raised
exceptions become `Except` errors, and the asynchronous writer loop becomes
an explicit step function over a queue-event trace.
-/

/- ================= Identity keys ================= -/

/-- Embeds `whatsapp_message._message_key` from
`src/WhatsApp/DerivedTypes/Message.py` (identical in
`src/WhatsApp/DefinedClasses/Message.py`):
`return f"wa-msg::{self.data_id}"`. -/
def message_key (data_id : String) : String := "wa-msg::" ++ data_id

/-- Embeds `whatsapp_chat` from `src/WhatsApp/DerivedTypes/Chat.py`
(the `chatID` field is assigned in `__post_init__`). -/
structure whatsapp_chat where
  chatName : String
  chatID : String
  system_hit_time : Nat
deriving Repr, DecidableEq

/-- Embeds the `whatsapp_message` dataclass from
`src/WhatsApp/DerivedTypes/Message.py`; the `message_id` field is assigned
in `__post_init__` as `self._message_key()`. -/
structure whatsapp_message where
  direction : String
  data_id : String
  raw_data : String
  parent_chat : whatsapp_chat
  data_type : Option String
  message_id : String
  system_hit_time : Nat
deriving Repr, DecidableEq

/-- Dataclass construction of `whatsapp_message`: `__post_init__` sets
`message_id := self._message_key()`; `system_hit_time` stands for the
`time.time()` default factory value at construction time. -/
def mk_whatsapp_message (direction data_id raw_data : String)
    (parent_chat : whatsapp_chat) (data_type : Option String)
    (t : Nat) : whatsapp_message :=
  { direction := direction, data_id := data_id, raw_data := raw_data,
    parent_chat := parent_chat, data_type := data_type,
    message_id := message_key data_id, system_hit_time := t }

/- Python `str.lower` / `str.strip`, used by `whatsapp_chat._chat_key`:
`return f"wa::{self.chatName.lower().strip()}"`
(`src/WhatsApp/DerivedTypes/Chat.py`). -/

/-- Python `str.lower` (ASCII case folding on each character). -/
def pyLower (s : String) : String := ⟨s.data.map Char.toLower⟩

/-- Left strip on the character list: drop leading whitespace. -/
def lstripL (l : List Char) : List Char := l.dropWhile Char.isWhitespace

/-- Right strip on the character list: drop trailing whitespace. -/
def rstripL (l : List Char) : List Char :=
  (l.reverse.dropWhile Char.isWhitespace).reverse

/-- Python `str.strip`: remove leading and trailing whitespace. -/
def pyStrip (s : String) : String := ⟨rstripL (lstripL s.data)⟩

/-- Embeds `whatsapp_chat._chat_key` from `src/WhatsApp/DerivedTypes/Chat.py`:
`return f"wa::{self.chatName.lower().strip()}"`. -/
def chat_key (chatName : String) : String := "wa::" ++ pyStrip (pyLower chatName)

/-- Dataclass construction of `whatsapp_chat`: `__post_init__` sets
`chatID := self._chat_key()`. -/
def mk_whatsapp_chat (chatName : String) (t : Nat) : whatsapp_chat :=
  { chatName := chatName, chatID := chat_key chatName, system_hit_time := t }

/- ================= Direction sorting helpers ================= -/

/-- Embeds `MessageProcessor.sort_incoming_messages` from
`RepositoryPattern/WhatsApp/Message_Processor.py`: `if not msgList: raise`
(true for both `None` and the empty list, hence the `Option` argument),
otherwise `[msg for msg in msgList if msg.Direction == "in"]`. -/
def sort_incoming_messages (msgList : Option (List whatsapp_message)) :
    Except String (List whatsapp_message) :=
  match msgList with
  | none => .error "Cant Sort incoming messages/ List is Empty/None"
  | some l =>
    if l.isEmpty then .error "Cant Sort incoming messages/ List is Empty/None"
    else .ok (l.filter (fun m => m.direction == "in"))

/-- Embeds `MessageProcessor.sort_outgoing_messages` from
`RepositoryPattern/WhatsApp/Message_Processor.py`. -/
def sort_outgoing_messages (msgList : Option (List whatsapp_message)) :
    Except String (List whatsapp_message) :=
  match msgList with
  | none => .error "Cant Sort outgoing messages/ List is Empty/None"
  | some l =>
    if l.isEmpty then .error "Cant Sort outgoing messages/ List is Empty/None"
    else .ok (l.filter (fun m => m.direction == "out"))

/- ================= Retry guard (ensure_chat_clicked) ================= -/

/-- Outcome of one guarded call: how many times the click predicate ran, how
many times the wrapped operation ran, and the value returned or error raised. -/
structure GuardResult (α : Type) where
  predCalls : Nat
  wrappedCalls : Nat
  result : Except String α
deriving Repr

/-- The `for attempt in range(1, retries + 1)` loop of
`ensure_chat_clicked.wrapper` in `src/Decorators/Chat_Click_decorator.py`:
`attempt` is the 1-based attempt number about to run, `fuel` the remaining
attempts; returns the number of predicate calls made and whether some
attempt returned true (`break`) before the budget ran out. -/
def guardLoop (pred : Nat → Bool) (attempt : Nat) : Nat → Nat × Bool
  | 0 => (0, false)
  | fuel + 1 =>
    if pred attempt then (1, true)
    else
      let r := guardLoop pred (attempt + 1) fuel
      (r.1 + 1, r.2)

/-- Default `retries` parameter of `ensure_chat_clicked`. -/
def guard_default_retries : Nat := 3

/-- Default `delay` parameter of `ensure_chat_clicked`, in tenths of a
time-unit (`0.5` seconds). -/
def guard_default_delay_tenths : Nat := 5

/-- Embeds `ensure_chat_clicked` from `src/Decorators/Chat_Click_decorator.py`:
run `chat_click_fn(self, chat)` up to `retries` times; on the first `true`
break out and call the wrapped `func(self, chat)` once with the original
arguments; if every attempt returns `false`, raise
`Exception("... Chat click failed. Aborting.")` and never call `func`.
The predicate is indexed by the 1-based attempt number. -/
def ensure_chat_clicked {σ χ α : Type} (pred : Nat → Bool) (retries : Nat)
    (func : σ → χ → α) (self : σ) (chat : χ) : GuardResult α :=
  let r := guardLoop pred 1 retries
  if r.2 then
    { predCalls := r.1, wrappedCalls := 1, result := .ok (func self chat) }
  else
    { predCalls := r.1, wrappedCalls := 0,
      result := .error "Chat click failed. Aborting." }

/- ================= Message extraction pass ================= -/

/-- A rendered message element as the extractor sees it: `reads k` is the
result of the k-th `get_dataID` read on this element (read 0 is the initial
read, reads 1..3 the per-element retries), `text` the `get_message_text`
result, `incoming` whether `msg.locator(".message-in").count() > 0`. -/
structure UIElem where
  reads : Nat → Option String
  text : String
  incoming : Bool

/-- Python truthiness of the scraped id: `not data_id` is true for both
`None` and the empty string. -/
def isBlank : Option String → Bool
  | none => true
  | some s => s == ""

/-- The per-element retry loop of `_get_wrapped_Messages`
(`RepositoryPattern/WhatsApp/Message_Processor.py`, the
`while not data_id and c2 < 3` loop): re-read `get_dataID` while the value
is falsy and fewer than 3 retries have happened. `d` is the value read so
far, `next` the index of the next read, `fuel` the remaining retries. -/
def retryDataId (reads : Nat → Option String) (d : Option String)
    (next : Nat) : Nat → Option String
  | 0 => d
  | fuel + 1 =>
    if isBlank d then retryDataId reads (reads next) (next + 1) fuel else d

/-- Final `data_id` for one element: the initial read followed by up to 3
retries while the value stays falsy. -/
def elemDataId (e : UIElem) : Option String :=
  retryDataId e.reads (e.reads 0) 1 3

/-- One iteration of the `for i in range(count)` body of
`_get_wrapped_Messages`: if the id is still falsy after the retries, log and
`continue` (no message); otherwise append a constructed `whatsapp_message`
with that id, the element text, and the direction marker. -/
def extractOne (chat : whatsapp_chat) (t : Nat) (e : UIElem) :
    Option whatsapp_message :=
  let d := elemDataId e
  if isBlank d then none
  else some (mk_whatsapp_message (if e.incoming then "in" else "out")
    (d.getD "") e.text chat none t)

/-- The whole element loop: one pass over the rendered elements in order,
skipping the elements whose id stayed falsy. -/
def extractElems (chat : whatsapp_chat) (t : Nat) (elems : List UIElem) :
    List whatsapp_message :=
  elems.filterMap (extractOne chat t)

/-- The whole-pass retry of `_get_wrapped_Messages`
(`while c < retry and count == 0`): requery the message list while it is
empty and the retry budget remains. `a` is the last query result, `next`
the index of the next query attempt, `fuel` the remaining retries. -/
def queryLoop (query : Nat → List UIElem) (a : List UIElem)
    (next : Nat) : Nat → List UIElem
  | 0 => a
  | fuel + 1 =>
    if a.isEmpty then queryLoop query (query next) (next + 1) fuel else a

/-- Typed errors of the extraction pass; the `raw` constructor stands for a
lower-layer UI exception escaping unwrapped, which the pass must never
produce. -/
inductive ExtractErr where
  | raw (e : String)
  | messageProcessorFailed (e : String)
  | messageListEmpty
deriving Repr, DecidableEq

/-- Modelled from the spec: `src/WhatsApp/message_processor.py` is not in the
source snapshot (only its unit tests are). Per spec section 4.4, the pass
queries the current message list, retries the query up to `retry` times
while the count is zero, fails with a `MessageListEmpty` error if the count
is still zero, otherwise runs the element loop; any exception raised by the
underlying UI layer during the pass is caught and re-raised as a single
`MessageProcessorFailed` error. The UI layer is `ui`: either a raised
exception or the attempt-indexed query function. -/
def get_wrapped_Messages (chat : whatsapp_chat)
    (ui : Except String (Nat → List UIElem)) (retry : Nat) (t : Nat) :
    Except ExtractErr (List whatsapp_message) :=
  match ui with
  | .error e => .error (.messageProcessorFailed ("failed to wrap messages: " ++ e))
  | .ok query =>
    let elems := queryLoop query (query 0) 1 retry
    if elems.isEmpty then .error .messageListEmpty
    else .ok (extractElems chat t elems)

/- ================= Dedup filter and Fetcher ================= -/

/-- The durable store as the dedup filter sees it: the list of `dedupKey`s
of the rows already persisted. -/
structure StoreModel where
  rows : List String
deriving Repr, DecidableEq

/-- `check_message_if_exists` point lookup: does a durable row with this
`dedupKey` exist. -/
def store_exists (st : StoreModel) (k : String) : Bool := st.rows.contains k

/-- Modelled from the spec: the Dedup Filter of the absent
`src/WhatsApp/message_processor.py` (spec section 4.5): keep exactly the
messages whose `dedupKey` the store reports absent. -/
def filterNew (st : StoreModel) (msgs : List whatsapp_message) :
    List whatsapp_message :=
  msgs.filter (fun m => !(store_exists st m.message_id))

/-- Result of one `Fetcher` call: the extracted list it returns and the
sublist it enqueues to storage. -/
structure FetchOutcome where
  returned : List whatsapp_message
  enqueued : List whatsapp_message
deriving Repr, DecidableEq

/-- Modelled from the spec: `MessageProcessor.Fetcher` of the absent
`src/WhatsApp/message_processor.py` — extract the wrapped messages, apply
the Dedup Filter against the store, and enqueue only the surviving
messages. -/
def Fetcher (st : StoreModel) (msgs : List whatsapp_message) : FetchOutcome :=
  { returned := msgs, enqueued := filterNew st msgs }

/-- A successful flush of the enqueued messages: the durable table gains one
row per message, keyed by its `dedupKey`. -/
def flushStore (st : StoreModel) (msgs : List whatsapp_message) : StoreModel :=
  ⟨st.rows ++ msgs.map (fun m => m.message_id)⟩

/- ================= Storage writer loop ================= -/

/-- One interaction of the writer loop with its queue: a dequeued message, a
`flushInterval` timeout on an empty wait, an error raised while waiting for
or accumulating an item, or the cancellation/shutdown signal. -/
inductive QEvent where
  | item (m : whatsapp_message)
  | timeout
  | errEvt
  | cancel
deriving Repr, DecidableEq

/-- Writer-loop state: the in-memory accumulating batch, the batches already
durably inserted, and the log lines emitted. -/
structure WriterState where
  batch : List whatsapp_message
  flushed : List (List whatsapp_message)
  log : List String
deriving Repr, DecidableEq

/-- Modelled from the spec: one iteration of the writer loop of the absent
`src/StorageDB/sqlite_db.py` (spec section 4.6). A dequeued item joins the
batch, which is flushed as soon as it reaches `batchSize`; a timeout with a
non-empty batch pending flushes it; an error while waiting or accumulating
is logged ("Writer loop error: …") and the loop continues; the cancellation
signal flushes any pending batch and exits (the returned flag). -/
def writerStep (batchSize : Nat) (st : WriterState) :
    QEvent → WriterState × Bool
  | .item m =>
    let b := st.batch ++ [m]
    if batchSize ≤ b.length then
      ({ batch := [], flushed := st.flushed ++ [b], log := st.log }, false)
    else
      ({ st with batch := b }, false)
  | .timeout =>
    if st.batch.isEmpty then (st, false)
    else ({ batch := [], flushed := st.flushed ++ [st.batch], log := st.log }, false)
  | .errEvt =>
    ({ st with log := st.log ++ ["Writer loop error: queue interaction failed"] }, false)
  | .cancel =>
    if st.batch.isEmpty then (st, true)
    else ({ batch := [], flushed := st.flushed ++ [st.batch], log := st.log }, true)

/-- Run the writer loop over a trace of queue interactions, stopping at the
first event whose step signals exit; returns the final state and whether the
loop exited (rather than still waiting for more queue items). -/
def writerRun (batchSize : Nat) (st : WriterState) :
    List QEvent → WriterState × Bool
  | [] => (st, false)
  | e :: es =>
    let r := writerStep batchSize st e
    if r.2 then (r.1, true) else writerRun batchSize r.1 es

/-- The messages carried by the events of a trace, up to (and not including)
the first cancellation signal. -/
def itemsBeforeCancel : List QEvent → List whatsapp_message
  | [] => []
  | .item m :: es => m :: itemsBeforeCancel es
  | .cancel :: _ => []
  | _ :: es => itemsBeforeCancel es

/-- The number of queue errors in a trace before the first cancellation. -/
def errsBeforeCancel : List QEvent → Nat
  | [] => 0
  | .errEvt :: es => errsBeforeCancel es + 1
  | .cancel :: _ => 0
  | _ :: es => errsBeforeCancel es

/- ================= Helper lemmas ================= -/

/-- Appending a fixed string on the left is injective. -/
theorem string_append_cancel_left (p s t : String) (h : p ++ s = p ++ t) :
    s = t := by
  have hd : p.data ++ s.data = p.data ++ t.data := by
    simpa [String.data_append] using congrArg String.data h
  have h2 : s.data = t.data := List.append_cancel_left hd
  cases s
  cases t
  exact congrArg String.mk h2

/- ================= Claim theorems ================= -/

/-- Claim C6, counterexample: the dedup key constructed for a message with
externalId `"1"` is not `"msg::" ++ "1"` (it is `"wa-msg::1"`). -/
theorem C6_counterexample :
    (mk_whatsapp_message "in" "1" "hello" (mk_whatsapp_chat "Ann" 0) none 0).message_id
      ≠ "msg::" ++ "1" := by
  decide

/-- Claim C6 (amended): for every message, the derived dedup key equals the
string `"wa-msg::"` concatenated with the externalId (`data_id`), so the key
is a pure function of the externalId alone (any two constructions with the
same externalId, whatever the other fields and times, yield the same key). -/
theorem C6_dedup_key_construction (d i r : String) (c : whatsapp_chat)
    (dt : Option String) (t : Nat) (d' r' : String) (c' : whatsapp_chat)
    (dt' : Option String) (t' : Nat) :
    (mk_whatsapp_message d i r c dt t).message_id = "wa-msg::" ++ i ∧
    (mk_whatsapp_message d i r c dt t).message_id
      = (mk_whatsapp_message d' i r' c' dt' t').message_id :=
  ⟨rfl, rfl⟩

/-- Claim C7: the message dedup key is deterministic (two constructions with
the same externalId always receive equal keys, on every construction) and
injective (constructions with distinct externalIds receive distinct keys). -/
theorem C7_message_key_deterministic_injective
    (i j d d' r r' : String) (c c' : whatsapp_chat) (dt dt' : Option String)
    (t t' : Nat) (hne : i ≠ j) :
    (mk_whatsapp_message d i r c dt t).message_id
      = (mk_whatsapp_message d' i r' c' dt' t').message_id ∧
    (mk_whatsapp_message d i r c dt t).message_id
      ≠ (mk_whatsapp_message d' j r' c' dt' t').message_id := by
  refine ⟨rfl, fun h => hne ?_⟩
  exact string_append_cancel_left "wa-msg::" i j h

/-- Claim C7 witness: instantiated at the distinct externalIds `"1"`
and `"2"`. -/
theorem C7_witness :
    (mk_whatsapp_message "in" "1" "a" (mk_whatsapp_chat "Ann" 0) none 0).message_id
      = (mk_whatsapp_message "out" "1" "b" (mk_whatsapp_chat "Bob" 1) (some "txt") 2).message_id ∧
    (mk_whatsapp_message "in" "1" "a" (mk_whatsapp_chat "Ann" 0) none 0).message_id
      ≠ (mk_whatsapp_message "out" "2" "b" (mk_whatsapp_chat "Bob" 1) (some "txt") 2).message_id :=
  C7_message_key_deterministic_injective "1" "2" "in" "out" "a" "b"
    (mk_whatsapp_chat "Ann" 0) (mk_whatsapp_chat "Bob" 1) none (some "txt") 0 2
    (by decide)

/-- Claim C1: the Fetcher enqueues to storage exactly those extracted
messages whose dedup key the store reports absent; consequently, re-running
the Fetcher over the same messages after a prior successful flush of the
enqueued messages enqueues zero messages. -/
theorem C1_fetcher_dedup (st : StoreModel) (msgs : List whatsapp_message) :
    (∀ m, m ∈ (Fetcher st msgs).enqueued
      ↔ m ∈ msgs ∧ store_exists st m.message_id = false) ∧
    (Fetcher (flushStore st (Fetcher st msgs).enqueued) msgs).enqueued = [] := by
  constructor
  · intro m
    simp [Fetcher, filterNew, List.mem_filter]
  · simp only [Fetcher, filterNew, List.filter_eq_nil_iff]
    intro m hm
    simp only [Bool.not_eq_true', Bool.not_eq_false]
    rw [show (store_exists (flushStore st (List.filter (fun m => !store_exists st m.message_id) msgs)) m.message_id = true) ↔ _ from List.elem_iff]
    simp only [flushStore, List.mem_append, List.mem_map]
    by_cases hx : store_exists st m.message_id
    · left
      simpa [store_exists, List.elem_iff] using hx
    · right
      refine ⟨m, ?_, rfl⟩
      simp only [Bool.not_eq_true] at hx
      simp [List.mem_filter, hm, hx]

/-- Claim C4: if the underlying UI layer raises during the extraction pass,
the pass surfaces a single MessageProcessorFailed-kind error carrying the
cause, and for no UI input does a raw lower-layer error escape. -/
theorem C4_typed_error_wrapping (chat : whatsapp_chat) (t retry : Nat)
    (e : String) (ui : Except String (Nat → List UIElem)) :
    get_wrapped_Messages chat (.error e) retry t
      = .error (.messageProcessorFailed ("failed to wrap messages: " ++ e)) ∧
    (∀ s, get_wrapped_Messages chat ui retry t ≠ .error (.raw s)) := by
  refine ⟨rfl, fun s => ?_⟩
  cases ui with
  | error u => simp [get_wrapped_Messages]
  | ok query =>
    simp only [get_wrapped_Messages]
    by_cases hq : (queryLoop query (query 0) 1 retry).isEmpty <;> simp [hq]

/-- Claim C10: the direction-sorting helpers reject empty input (an error for
both an absent and an empty message list) and, for every non-empty list,
return exactly the order-preserving sublist whose direction matches. -/
theorem C10_sort_direction_helpers (l : List whatsapp_message)
    (h : ¬ l.isEmpty) :
    (∃ e, sort_incoming_messages none = .error e) ∧
    (∃ e, sort_incoming_messages (some []) = .error e) ∧
    (∃ e, sort_outgoing_messages none = .error e) ∧
    (∃ e, sort_outgoing_messages (some []) = .error e) ∧
    (∃ r, sort_incoming_messages (some l) = .ok r ∧ r.Sublist l ∧
      ∀ m, m ∈ r ↔ m ∈ l ∧ m.direction = "in") ∧
    (∃ r, sort_outgoing_messages (some l) = .ok r ∧ r.Sublist l ∧
      ∀ m, m ∈ r ↔ m ∈ l ∧ m.direction = "out") := by
  refine ⟨⟨_, rfl⟩, ⟨_, rfl⟩, ⟨_, rfl⟩, ⟨_, rfl⟩, ?_, ?_⟩
  · refine ⟨l.filter (fun m => m.direction == "in"), ?_, List.filter_sublist l, ?_⟩
    · have hne : l ≠ [] := by simpa using h
      simp [sort_incoming_messages, hne]
    · intro m
      simp [List.mem_filter]
  · refine ⟨l.filter (fun m => m.direction == "out"), ?_, List.filter_sublist l, ?_⟩
    · have hne : l ≠ [] := by simpa using h
      simp [sort_outgoing_messages, hne]
    · intro m
      simp [List.mem_filter]

/-- Claim C10 witness: instantiated at a one-message list. -/
theorem C10_witness :
    ∃ r, sort_incoming_messages
        (some [mk_whatsapp_message "in" "1" "hi" (mk_whatsapp_chat "Ann" 0) none 0]) = .ok r ∧
      r.Sublist [mk_whatsapp_message "in" "1" "hi" (mk_whatsapp_chat "Ann" 0) none 0] ∧
      ∀ m, m ∈ r ↔
        m ∈ [mk_whatsapp_message "in" "1" "hi" (mk_whatsapp_chat "Ann" 0) none 0] ∧
        m.direction = "in" :=
  (C10_sort_direction_helpers
    [mk_whatsapp_message "in" "1" "hi" (mk_whatsapp_chat "Ann" 0) none 0]
    (by decide)).2.2.2.2.1

/-- If every attempt in the budget fails the predicate, the guard loop makes
exactly `fuel` predicate calls and reports failure. -/
theorem guardLoop_all_false (pred : Nat → Bool) :
    ∀ (fuel start : Nat),
      (∀ j, start ≤ j → j < start + fuel → pred j = false) →
      guardLoop pred start fuel = (fuel, false)
  | 0, _, _ => rfl
  | fuel + 1, start, h => by
    have h0 : pred start = false := h start le_rfl (by omega)
    have ih := guardLoop_all_false pred fuel (start + 1)
      (fun j hj1 hj2 => h j (by omega) (by omega))
    simp [guardLoop, h0, ih]

/-- If attempt `k` is the first to satisfy the predicate and lies within the
budget, the guard loop makes exactly the calls up to `k` and succeeds. -/
theorem guardLoop_first_success (pred : Nat → Bool) :
    ∀ (fuel start k : Nat), start ≤ k → k < start + fuel → pred k = true →
      (∀ j, start ≤ j → j < k → pred j = false) →
      guardLoop pred start fuel = (k - start + 1, true)
  | 0, _, k, h1, h2, _, _ => absurd h2 (by omega)
  | fuel + 1, start, k, h1, h2, h3, h4 => by
    by_cases hs : start = k
    · subst hs
      simp [guardLoop, h3]
    · have hps : pred start = false := h4 start le_rfl (by omega)
      have ih := guardLoop_first_success pred fuel (start + 1) k (by omega)
        (by omega) h3 (fun j hj1 hj2 => h4 j (by omega) hj2)
      simp only [guardLoop, hps, Bool.false_eq_true, if_false, ih]
      have : k - (start + 1) + 1 + 1 = k - start + 1 := by omega
      simp [this]

/-- Claim C3: for every wrapped operation guarded by the retry decorator, if
some attempt of the precondition predicate is the first to return true
within the budget, the predicate is not attempted again, and the wrapped
operation runs exactly once with the original `(self, chat)` arguments; if
all attempts return false, the call raises the click-failure error and the
wrapped operation never runs (and the predicate ran the full budget). -/
theorem C3_retry_guard {σ χ α : Type} (pred : Nat → Bool) (retries : Nat)
    (func : σ → χ → α) (self : σ) (chat : χ) :
    (∀ k, 1 ≤ k → k ≤ retries → pred k = true →
      (∀ j, 1 ≤ j → j < k → pred j = false) →
      (ensure_chat_clicked pred retries func self chat).predCalls = k ∧
      (ensure_chat_clicked pred retries func self chat).wrappedCalls = 1 ∧
      (ensure_chat_clicked pred retries func self chat).result
        = .ok (func self chat)) ∧
    ((∀ j, 1 ≤ j → j ≤ retries → pred j = false) →
      (ensure_chat_clicked pred retries func self chat).predCalls = retries ∧
      (ensure_chat_clicked pred retries func self chat).wrappedCalls = 0 ∧
      (ensure_chat_clicked pred retries func self chat).result
        = .error "Chat click failed. Aborting.") := by
  constructor
  · intro k hk1 hk2 hk3 hk4
    have hl : guardLoop pred 1 retries = (k - 1 + 1, true) :=
      guardLoop_first_success pred retries 1 k hk1 (by omega) hk3 hk4
    have hk : k - 1 + 1 = k := by omega
    rw [hk] at hl
    simp [ensure_chat_clicked, hl]
  · intro hall
    have hl : guardLoop pred 1 retries = (retries, false) :=
      guardLoop_all_false pred retries 1 (fun j hj1 hj2 => hall j hj1 (by omega))
    simp [ensure_chat_clicked, hl]

/-- Claim C3 witness: a predicate first true on attempt 2 with budget 3, and
an always-false predicate with budget 3. -/
theorem C3_witness :
    ((ensure_chat_clicked (fun j => j == 2) 3
        (fun (a b : Nat) => a + b) 10 5).predCalls = 2 ∧
      (ensure_chat_clicked (fun j => j == 2) 3
        (fun (a b : Nat) => a + b) 10 5).wrappedCalls = 1 ∧
      (ensure_chat_clicked (fun j => j == 2) 3
        (fun (a b : Nat) => a + b) 10 5).result = .ok 15) ∧
    ((ensure_chat_clicked (fun _ => false) 3
        (fun (a b : Nat) => a + b) 10 5).predCalls = 3 ∧
      (ensure_chat_clicked (fun _ => false) 3
        (fun (a b : Nat) => a + b) 10 5).wrappedCalls = 0 ∧
      (ensure_chat_clicked (fun _ => false) 3
        (fun (a b : Nat) => a + b) 10 5).result
        = .error "Chat click failed. Aborting.") :=
  ⟨(C3_retry_guard (fun j => j == 2) 3 (fun (a b : Nat) => a + b) 10 5).1 2
      (by decide) (by decide) (by decide)
      (by intro j h1 h2; simp; omega),
    (C3_retry_guard (fun _ => false) 3 (fun (a b : Nat) => a + b) 10 5).2
      (fun _ _ _ => rfl)⟩

/-- If the query keeps returning an empty element list for the whole retry
budget, the whole-pass retry loop ends with the empty list. -/
theorem queryLoop_empty (query : Nat → List UIElem) :
    ∀ (fuel next : Nat),
      (∀ i, next ≤ i → i < next + fuel → query i = []) →
      queryLoop query [] next fuel = []
  | 0, _, _ => rfl
  | fuel + 1, next, h => by
    have h0 : query next = [] := h next le_rfl (by omega)
    have ih := queryLoop_empty query fuel (next + 1)
      (fun i h1 h2 => h i (by omega) (by omega))
    simp [queryLoop, h0, ih]

/-- A non-empty query result ends the whole-pass retry loop at once. -/
theorem queryLoop_nonempty (query : Nat → List UIElem) (a : List UIElem)
    (ha : a.isEmpty = false) : ∀ (fuel next : Nat), queryLoop query a next fuel = a
  | 0, _ => rfl
  | fuel + 1, next => by simp [queryLoop, ha]

/-- Claim C5: if the UI message count is still zero on every query attempt
of the retry budget, the extraction pass fails with the MessageListEmpty
error (it does not return normally). -/
theorem C5_empty_extraction_fails (chat : whatsapp_chat) (t retry : Nat)
    (query : Nat → List UIElem) (h : ∀ i, i ≤ retry → query i = []) :
    get_wrapped_Messages chat (.ok query) retry t = .error .messageListEmpty := by
  have h0 : query 0 = [] := h 0 (by omega)
  have hq : queryLoop query (query 0) 1 retry = [] := by
    rw [h0]
    exact queryLoop_empty query retry 1 (fun i _ h2 => h i (by omega))
  simp [get_wrapped_Messages, hq]

/-- Claim C5 witness: a query that always returns zero rendered messages,
with retry budget 3. -/
theorem C5_witness :
    get_wrapped_Messages (mk_whatsapp_chat "Ann" 0) (.ok (fun _ => [])) 3 0
      = .error .messageListEmpty :=
  C5_empty_extraction_fails (mk_whatsapp_chat "Ann" 0) 0 3 (fun _ => [])
    (fun _ _ => rfl)

/-- Claim C2: an element whose id is still blank after the per-element
retries is skipped (it yields no message), every message of the extraction
output carries a non-empty externalId, no enqueued message lacks an
externalId, and a pass where every element lacks an id returns the empty
sequence rather than an error. -/
theorem C2_no_key_messages_skipped (chat : whatsapp_chat) (t : Nat)
    (elems : List UIElem) (st : StoreModel) (retry : Nat) :
    (∀ e, e ∈ elems → isBlank (elemDataId e) = true →
      extractOne chat t e = none) ∧
    (∀ m, m ∈ extractElems chat t elems → m.data_id ≠ "") ∧
    (∀ m, m ∈ (Fetcher st (extractElems chat t elems)).enqueued →
      m.data_id ≠ "") ∧
    ((∀ e, e ∈ elems → isBlank (elemDataId e) = true) → elems ≠ [] →
      get_wrapped_Messages chat (.ok (fun _ => elems)) retry t = .ok []) := by
  have h1 : ∀ e, isBlank (elemDataId e) = true → extractOne chat t e = none := by
    intro e he
    simp [extractOne, he]
  have h2 : ∀ m, m ∈ extractElems chat t elems → m.data_id ≠ "" := by
    intro m hm
    simp only [extractElems, List.mem_filterMap] at hm
    obtain ⟨e, _, hsome⟩ := hm
    simp only [extractOne] at hsome
    rcases hd : elemDataId e with _ | s
    · rw [hd] at hsome
      simp [isBlank] at hsome
    · rw [hd] at hsome
      by_cases hs : s = ""
      · subst hs
        simp [isBlank] at hsome
      · have hb : isBlank (some s) = false := by simp [isBlank, hs]
        rw [hb] at hsome
        simp only [Bool.false_eq_true, if_false, Option.some.injEq] at hsome
        rw [← hsome]
        simpa [mk_whatsapp_message] using hs
  refine ⟨fun e _ => h1 e, h2, ?_, ?_⟩
  · intro m hm
    apply h2
    simp only [Fetcher, filterNew, List.mem_filter] at hm
    exact hm.1
  · intro hall hne
    have hq : queryLoop (fun _ => elems) elems 1 retry = elems :=
      queryLoop_nonempty _ elems (by simpa [List.isEmpty_iff] using hne) retry 1
    have hext : extractElems chat t elems = [] := by
      simp only [extractElems, List.filterMap_eq_nil_iff]
      intro e he
      exact h1 e (hall e he)
    simp [get_wrapped_Messages, hq, List.isEmpty_iff, hne, hext]

/-- Claim C2 witness: a single element whose id reads always return `None`,
with retry budget 3 and an empty store. -/
theorem C2_witness :
    extractOne (mk_whatsapp_chat "Ann" 0) 0 ⟨fun _ => none, "x", true⟩ = none ∧
    get_wrapped_Messages (mk_whatsapp_chat "Ann" 0)
      (.ok (fun _ => [⟨fun _ => none, "x", true⟩])) 3 0 = .ok [] := by
  have h := C2_no_key_messages_skipped (mk_whatsapp_chat "Ann" 0) 0
    [⟨fun _ => none, "x", true⟩] ⟨[]⟩ 3
  refine ⟨h.1 _ (by simp) rfl, h.2.2.2 ?_ (by simp)⟩
  intro e he
  rw [List.mem_singleton.mp he]
  rfl

/-- Claim C8: over every trace of queue interactions, the writer loop exits
only on a cancellation signal (a queue error is logged as a writer-loop
error and the loop continues), and at every point, in particular at
cancellation, the flushed batches together with the pending batch carry
exactly every accumulated message, with the pending batch empty after a
cancellation, so cancellation never discards accumulated messages. -/
theorem C8_writer_resilience_and_final_flush (batchSize : Nat)
    (events : List QEvent) : ∀ st : WriterState,
    ((writerRun batchSize st events).2 = true ↔ QEvent.cancel ∈ events) ∧
    ((writerRun batchSize st events).1.flushed.flatten
        ++ (writerRun batchSize st events).1.batch
      = st.flushed.flatten ++ st.batch ++ itemsBeforeCancel events) ∧
    (QEvent.cancel ∈ events → (writerRun batchSize st events).1.batch = []) ∧
    ((writerRun batchSize st events).1.log
      = st.log ++ List.replicate (errsBeforeCancel events)
          "Writer loop error: queue interaction failed") := by
  induction events with
  | nil =>
    intro st
    simp [writerRun, itemsBeforeCancel, errsBeforeCancel]
  | cons e es ih =>
    intro st
    cases e with
    | item m =>
      by_cases hb : batchSize ≤ st.batch.length + 1
      · have hrun : writerRun batchSize st (QEvent.item m :: es)
            = writerRun batchSize
                ⟨[], st.flushed ++ [st.batch ++ [m]], st.log⟩ es := by
          simp [writerRun, writerStep, hb]
        obtain ⟨i1, i2, i3, i4⟩ := ih ⟨[], st.flushed ++ [st.batch ++ [m]], st.log⟩
        rw [hrun]
        refine ⟨by simpa using i1, ?_, fun hc => i3 (by simpa using hc),
          by simpa [errsBeforeCancel] using i4⟩
        rw [i2]
        simp [itemsBeforeCancel, List.flatten_append, List.append_assoc]
      · have hrun : writerRun batchSize st (QEvent.item m :: es)
            = writerRun batchSize
                ⟨st.batch ++ [m], st.flushed, st.log⟩ es := by
          simp [writerRun, writerStep, hb]
        obtain ⟨i1, i2, i3, i4⟩ := ih ⟨st.batch ++ [m], st.flushed, st.log⟩
        rw [hrun]
        refine ⟨by simpa using i1, ?_, fun hc => i3 (by simpa using hc),
          by simpa [errsBeforeCancel] using i4⟩
        rw [i2]
        simp [itemsBeforeCancel, List.append_assoc]
    | timeout =>
      by_cases hb : st.batch.isEmpty
      · have hrun : writerRun batchSize st (QEvent.timeout :: es)
            = writerRun batchSize st es := by
          simp [writerRun, writerStep, hb]
        obtain ⟨i1, i2, i3, i4⟩ := ih st
        rw [hrun]
        refine ⟨by simpa using i1, ?_, fun hc => i3 (by simpa using hc),
          by simpa [errsBeforeCancel] using i4⟩
        rw [i2]
        simp [itemsBeforeCancel]
      · have hrun : writerRun batchSize st (QEvent.timeout :: es)
            = writerRun batchSize ⟨[], st.flushed ++ [st.batch], st.log⟩ es := by
          simp [writerRun, writerStep, hb]
        obtain ⟨i1, i2, i3, i4⟩ := ih ⟨[], st.flushed ++ [st.batch], st.log⟩
        rw [hrun]
        refine ⟨by simpa using i1, ?_, fun hc => i3 (by simpa using hc),
          by simpa [errsBeforeCancel] using i4⟩
        rw [i2]
        simp [itemsBeforeCancel, List.flatten_append, List.append_assoc]
    | errEvt =>
      have hrun : writerRun batchSize st (QEvent.errEvt :: es)
          = writerRun batchSize
              ⟨st.batch, st.flushed,
                st.log ++ ["Writer loop error: queue interaction failed"]⟩ es := by
        simp [writerRun, writerStep]
      obtain ⟨i1, i2, i3, i4⟩ := ih
        ⟨st.batch, st.flushed,
          st.log ++ ["Writer loop error: queue interaction failed"]⟩
      rw [hrun]
      refine ⟨by simpa using i1, by simpa [itemsBeforeCancel] using i2,
        fun hc => i3 (by simpa using hc), ?_⟩
      rw [i4]
      simp [errsBeforeCancel, List.replicate_succ, List.append_assoc]
    | cancel =>
      by_cases hb : st.batch.isEmpty
      · have hrun : writerRun batchSize st (QEvent.cancel :: es) = (st, true) := by
          simp [writerRun, writerStep, hb]
        rw [hrun]
        refine ⟨by simp, ?_, fun _ => ?_, by simp [errsBeforeCancel]⟩
        · simp [itemsBeforeCancel, List.isEmpty_iff.mp hb]
        · exact List.isEmpty_iff.mp hb
      · have hrun : writerRun batchSize st (QEvent.cancel :: es)
            = (⟨[], st.flushed ++ [st.batch], st.log⟩, true) := by
          simp [writerRun, writerStep, hb]
        rw [hrun]
        refine ⟨by simp, ?_, fun _ => rfl, by simp [errsBeforeCancel]⟩
        simp [itemsBeforeCancel, List.flatten_append]

/-- Claim C8 witness: a trace that accumulates one message, survives a queue
error, and is cancelled; the loop exits with an empty pending batch. -/
theorem C8_witness :
    (writerRun 10 ⟨[], [], []⟩
        [QEvent.item (mk_whatsapp_message "in" "1" "a" (mk_whatsapp_chat "Ann" 0) none 0),
          QEvent.errEvt, QEvent.cancel]).1.batch = [] ∧
    (writerRun 10 ⟨[], [], []⟩
        [QEvent.item (mk_whatsapp_message "in" "1" "a" (mk_whatsapp_chat "Ann" 0) none 0),
          QEvent.errEvt, QEvent.cancel]).2 = true := by
  have h := C8_writer_resilience_and_final_flush 10
    [QEvent.item (mk_whatsapp_message "in" "1" "a" (mk_whatsapp_chat "Ann" 0) none 0),
      QEvent.errEvt, QEvent.cancel] ⟨[], [], []⟩
  exact ⟨h.2.2.1 (by simp), h.1.mpr (by simp)⟩

/- Character-level facts about Python `str.lower` on the ASCII model. -/

/-- Lowering fixes whitespace characters. -/
theorem toLower_ws (c : Char) (h : c.isWhitespace = true) : c.toLower = c := by
  simp only [Char.isWhitespace, Bool.or_eq_true, decide_eq_true_eq] at h
  rcases h with ((h | h) | h) | h <;> subst h <;> decide

/-- Packing a basic-latin lower-case codepoint round-trips through `toNat`. -/
theorem toNat_ofNat_lower_letter (n : Nat) (h1 : 97 ≤ n) (h2 : n ≤ 122) :
    (Char.ofNat n).toNat = n := by
  have hv : n.isValidChar := Or.inl (by omega)
  simp [Char.ofNat, hv, Char.ofNatAux, Char.toNat, UInt32.toNat, BitVec.toNat_ofNatLt]

/-- Case folding is idempotent on every character. -/
theorem toLower_toLower (c : Char) : c.toLower.toLower = c.toLower := by
  by_cases h : 65 ≤ c.toNat ∧ c.toNat ≤ 90
  · have h1 : c.toLower = Char.ofNat (c.toNat + 32) := by
      unfold Char.toLower
      exact if_pos ⟨h.1, h.2⟩
    have ht : (Char.ofNat (c.toNat + 32)).toNat = c.toNat + 32 :=
      toNat_ofNat_lower_letter _ (by omega) (by omega)
    have h2 : (Char.ofNat (c.toNat + 32)).toLower = Char.ofNat (c.toNat + 32) := by
      unfold Char.toLower
      refine if_neg ?_
      rw [ht]
      omega
    rw [h1, h2]
  · have h1 : c.toLower = c := by
      unfold Char.toLower
      exact if_neg (fun hc => h ⟨hc.1, hc.2⟩)
    rw [h1, h1]

/- List-level facts about Python `str.strip` on the character-list model. -/

/-- Dropping whitespace walks through an all-whitespace block. -/
theorem dropWhile_ws_append (w x : List Char)
    (hw : ∀ c ∈ w, c.isWhitespace = true) :
    (w ++ x).dropWhile Char.isWhitespace = x.dropWhile Char.isWhitespace := by
  induction w with
  | nil => rfl
  | cons c w ih =>
    rw [List.cons_append, List.dropWhile_cons, if_pos (hw c (List.mem_cons_self c w))]
    exact ih (fun d hd => hw d (List.mem_cons_of_mem c hd))

/-- Dropping whitespace annihilates an all-whitespace list. -/
theorem dropWhile_ws_all (w : List Char) (hw : ∀ c ∈ w, c.isWhitespace = true) :
    w.dropWhile Char.isWhitespace = [] := by
  simpa using dropWhile_ws_append w [] hw

/-- Right strip ignores appended trailing whitespace. -/
theorem rstripL_append_ws (x w : List Char)
    (hw : ∀ c ∈ w, c.isWhitespace = true) : rstripL (x ++ w) = rstripL x := by
  unfold rstripL
  rw [List.reverse_append, dropWhile_ws_append _ _
    (fun c hc => hw c (List.mem_reverse.mp hc))]

/-- The strip of a whitespace-padded list is the strip of the list. -/
theorem strip_pad (w₁ x w₂ : List Char)
    (h₁ : ∀ c ∈ w₁, c.isWhitespace = true)
    (h₂ : ∀ c ∈ w₂, c.isWhitespace = true) :
    rstripL (lstripL (w₁ ++ x ++ w₂)) = rstripL (lstripL x) := by
  have e1 : lstripL (w₁ ++ x ++ w₂) = lstripL (x ++ w₂) := by
    rw [List.append_assoc]
    exact dropWhile_ws_append w₁ (x ++ w₂) h₁
  rw [e1]
  by_cases hx : (lstripL x).isEmpty
  · have hx' : lstripL x = [] := by simpa [List.isEmpty_iff] using hx
    have e2 : lstripL (x ++ w₂) = [] := by
      unfold lstripL
      rw [List.dropWhile_append]
      simp only [lstripL] at hx
      rw [if_pos hx]
      exact dropWhile_ws_all w₂ h₂
    rw [e2, hx']
  · have hx' : (lstripL x).isEmpty = false := by
      simpa using hx
    have e2 : lstripL (x ++ w₂) = lstripL x ++ w₂ := by
      unfold lstripL
      rw [List.dropWhile_append]
      simp only [lstripL] at hx'
      rw [if_neg (by simp [hx'])]
    rw [e2]
    exact rstripL_append_ws _ _ h₂

/-- Right strip is idempotent. -/
theorem rstripL_rstripL (y : List Char) : rstripL (rstripL y) = rstripL y := by
  unfold rstripL
  rw [List.reverse_reverse, List.dropWhile_idempotent]

/-- Right strip keeps a prefix of the list. -/
theorem rstripL_prefix_eq (y : List Char) : ∃ t, rstripL y ++ t = y := by
  obtain ⟨t, ht⟩ := List.dropWhile_suffix (l := y.reverse) (p := Char.isWhitespace)
  refine ⟨t.reverse, ?_⟩
  have h2 := congrArg List.reverse ht
  simpa [List.reverse_append, rstripL] using h2

/-- A prefix of a left-stripped list is itself left-stripped. -/
theorem lstripL_fixed_of_prefix_part (y p t : List Char) (hy : lstripL y = y)
    (hpt : p ++ t = y) : lstripL p = p := by
  cases p with
  | nil => rfl
  | cons c p' =>
    have hc : Char.isWhitespace c = false := by
      by_contra hcc
      have hc' : Char.isWhitespace c = true := by simpa using hcc
      have hy2 : y = c :: (p' ++ t) := by
        rw [← hpt]
        rfl
      have hless : lstripL y = lstripL (p' ++ t) := by
        rw [hy2]
        unfold lstripL
        rw [List.dropWhile_cons, if_pos hc']
      rw [hy] at hless
      have hlen : (lstripL (p' ++ t)).length ≤ (p' ++ t).length :=
        ((List.dropWhile_suffix _).sublist).length_le
      have hlength := congrArg List.length hless
      rw [hy2] at hlength
      simp only [List.length_cons] at hlength
      omega
    unfold lstripL
    rw [List.dropWhile_cons, if_neg (by simp [hc])]

/-- Stripping is idempotent. -/
theorem strip_idem (l : List Char) :
    rstripL (lstripL (rstripL (lstripL l))) = rstripL (lstripL l) := by
  have hyy : lstripL (lstripL l) = lstripL l := by
    unfold lstripL
    exact List.dropWhile_idempotent _ _
  obtain ⟨t, ht⟩ := rstripL_prefix_eq (lstripL l)
  have h1 : lstripL (rstripL (lstripL l)) = rstripL (lstripL l) :=
    lstripL_fixed_of_prefix_part (lstripL l) (rstripL (lstripL l)) t hyy ht
  rw [h1, rstripL_rstripL]

/-- Claim C9: the chat key is invariant under leading/trailing whitespace
padding of the display name and under letter-case variation (names with the
same case-folded form share a key), and it equals the key of the
already-normalized name (the lower-then-strip normalization is idempotent). -/
theorem C9_chat_key_normalization (name n₁ n₂ w₁ w₂ : String)
    (hw₁ : ∀ c ∈ w₁.data, c.isWhitespace = true)
    (hw₂ : ∀ c ∈ w₂.data, c.isWhitespace = true)
    (hcase : pyLower n₁ = pyLower n₂) :
    chat_key (w₁ ++ name ++ w₂) = chat_key name ∧
    chat_key n₁ = chat_key n₂ ∧
    chat_key (pyStrip (pyLower name)) = chat_key name := by
  refine ⟨?_, ?_, ?_⟩
  · unfold chat_key
    congr 1
    apply String.ext
    show rstripL (lstripL ((w₁ ++ name ++ w₂).data.map Char.toLower))
      = rstripL (lstripL (name.data.map Char.toLower))
    have hdata : (w₁ ++ name ++ w₂).data = w₁.data ++ name.data ++ w₂.data := by
      simp [String.data_append]
    rw [hdata, List.map_append, List.map_append]
    refine strip_pad _ _ _ ?_ ?_
    · intro c hc
      obtain ⟨c₀, hc₀, rfl⟩ := List.mem_map.mp hc
      rw [toLower_ws c₀ (hw₁ c₀ hc₀)]
      exact hw₁ c₀ hc₀
    · intro c hc
      obtain ⟨c₀, hc₀, rfl⟩ := List.mem_map.mp hc
      rw [toLower_ws c₀ (hw₂ c₀ hc₀)]
      exact hw₂ c₀ hc₀
  · unfold chat_key
    rw [hcase]
  · unfold chat_key
    congr 1
    apply String.ext
    show rstripL (lstripL ((pyStrip (pyLower name)).data.map Char.toLower))
      = rstripL (lstripL (name.data.map Char.toLower))
    have hm : (pyStrip (pyLower name)).data
        = rstripL (lstripL (name.data.map Char.toLower)) := rfl
    rw [hm]
    have hsub : ∀ c, c ∈ rstripL (lstripL (name.data.map Char.toLower)) →
        c ∈ name.data.map Char.toLower := by
      intro c hc
      obtain ⟨t, ht⟩ := rstripL_prefix_eq (lstripL (name.data.map Char.toLower))
      have h1 : c ∈ lstripL (name.data.map Char.toLower) := by
        rw [← ht]
        exact List.mem_append_left _ hc
      obtain ⟨t2, ht2⟩ := List.dropWhile_suffix
        (l := name.data.map Char.toLower) (p := Char.isWhitespace)
      rw [← ht2]
      exact List.mem_append_right _ h1
    have hfix : (rstripL (lstripL (name.data.map Char.toLower))).map Char.toLower
        = rstripL (lstripL (name.data.map Char.toLower)) := by
      have hptw : ∀ c ∈ rstripL (lstripL (name.data.map Char.toLower)),
          Char.toLower c = id c := by
        intro c hc
        obtain ⟨c₀, _, rfl⟩ := List.mem_map.mp (hsub c hc)
        exact toLower_toLower c₀
      rw [List.map_congr_left hptw, List.map_id]
    rw [hfix]
    exact strip_idem _

/-- Claim C9 witness: the display names `"Alice "` and `"alice"` map to the
same chat key. -/
theorem C9_witness : chat_key "Alice " = chat_key "alice" := by
  have h := C9_chat_key_normalization "Alice" "Alice" "alice" "" " "
    (by decide) (by decide) (by decide)
  have e : ("" ++ "Alice" ++ " " : String) = "Alice " := by decide
  rw [e] at h
  exact h.1.trans h.2.1
